import Mathlib

/-
  Verification of the streaming-transfer and pagination layer of the
  s3tethys package (src/s3tethys/main.py and src/s3tethys/utils.py),
  via a shallow embedding in Lean 4.

  Conventions of the embedding:
  * Python byte streams that support tell/seek are a `FileObj`
    (a byte list plus a cursor position).
  * The S3 backend is modelled as a pure function from request
    parameters to a response; each wrapper takes that function as an
    argument, mirroring the boto3 client handle.
  * Python `while True` loops are given explicit fuel; running out of
    fuel yields `none`, so `none` for every fuel means the loop never
    terminates.
  * Raised Python exceptions become `Except` errors or explicit
    outcome constructors.
  * Timestamps are a UTC wall-clock value plus a flag recording
    whether timezone information is attached (boto3 returns tz-aware
    UTC datetimes; pandas dt.tz_localize None drops the tz flag and
    keeps the wall clock).
-/

namespace S3Tethys

/-- Timestamps as returned by the backend: a UTC wall-clock value and a
flag saying whether timezone info is attached. -/
structure Timestamp where
  wallUTC : Int
  hasTZ : Bool
deriving DecidableEq, Repr

/-- An entry of a list_objects_v2 response's Contents array. -/
structure ObjectRecord where
  key : String
  lastModified : Timestamp
  etag : String
  size : Nat
deriving DecidableEq, Repr

/-- An entry of a list_object_versions response's Versions array. -/
structure VersionRecord where
  key : String
  versionId : String
  isLatest : Bool
  lastModified : Timestamp
  etag : String
  size : Nat
deriving DecidableEq, Repr

/-- A key plus version id pair, as consumed by delete_objects_s3. -/
structure KeyVersion where
  key : String
  versionId : String
deriving DecidableEq, Repr

/-- A seekable Python binary stream: the bytes plus the cursor. -/
structure FileObj where
  data : List UInt8
  pos : Nat
deriving DecidableEq, Repr

/-- Python file_obj.tell. -/
def FileObj.tell (f : FileObj) : Nat := f.pos

/-- Python file_obj.seek with io.SEEK_END and offset 0. -/
def FileObj.seekEnd (f : FileObj) : FileObj := { f with pos := f.data.length }

/-- Python file_obj.seek to an absolute position. -/
def FileObj.seekTo (f : FileObj) (p : Nat) : FileObj := { f with pos := p }

/-- utils.determine_file_obj_size: remember the position, seek to the
end, read the offset there as the size, seek back.  Returns the size
and the stream as left behind. -/
def determine_file_obj_size (file_obj : FileObj) : Nat × FileObj :=
  (file_obj.seekEnd.tell, file_obj.seekEnd.seekTo file_obj.tell)

/-- The module-level multipart_size constant of main.py, 2^28. -/
def multipart_size : Nat := 2 ^ 28

/-- The part of smart_open's transport_params that put_object_s3
decides: whether to use the multipart branch and which client call the
extras dict is attached to.  The extras themselves (metadata,
content type, legal hold) ride along unchanged in either branch. -/
structure PutTransportParams where
  multipart_upload : Bool
  client_kwargs_key : String
deriving DecidableEq, Repr

/-- The size-dependent branch of put_object_s3 (main.py lines 417-424):
compute the object size by seek-to-end-and-back, then choose multipart
iff the size strictly exceeds multipart_size. -/
def put_object_s3_transport (file_obj : FileObj) : PutTransportParams :=
  if (determine_file_obj_size file_obj).1 > multipart_size then
    { multipart_upload := true, client_kwargs_key := "S3.Client.create_multipart_upload" }
  else
    { multipart_upload := false, client_kwargs_key := "S3.Client.put_object" }

/-- utils.chunks: lst_len // n_items full slices of n_items elements
each, followed by one slice of lst_len % n_items elements when that
remainder is positive.  Python's lst[pos:pos+k] is drop pos, take k;
the conditional trailing yield becomes a conditional singleton. -/
def chunks (lst : List α) (n_items : Nat) : List (List α) :=
  (List.range (lst.length / n_items)).map
      (fun i => (lst.drop (i * n_items)).take n_items)
    ++ (if lst.length % n_items > 0 then
          [(lst.drop (lst.length / n_items * n_items)).take (lst.length % n_items)]
        else [])

/-- One s3.delete_objects request as issued by delete_objects_s3. -/
structure DeleteCall where
  bucket : String
  objects : List KeyVersion
  quiet : Bool
deriving DecidableEq, Repr

/-- delete_objects_s3 (main.py lines 816-825): one quiet delete_objects
call per 1000-element chunk of the input key list.  The model returns
the sequence of backend calls made. -/
def delete_objects_s3 (bucket : String) (obj_keys : List KeyVersion) : List DeleteCall :=
  (chunks obj_keys 1000).map (fun keys => { bucket := bucket, objects := keys, quiet := true })

lemma flatten_range_chunks (lst : List α) (k : Nat) :
    ∀ q : Nat, ((List.range q).map (fun i => (lst.drop (i * k)).take k)).flatten
      = lst.take (q * k) := by
  intro q
  induction q with
  | zero => simp
  | succ n ih =>
    rw [List.range_succ, List.map_append, List.flatten_append, ih]
    simp only [List.map_cons, List.map_nil, List.flatten_cons, List.flatten_nil,
      List.append_nil]
    rw [Nat.succ_mul, List.take_add]

lemma chunks_flatten (lst : List α) (k : Nat) :
    (chunks lst k).flatten = lst := by
  unfold chunks
  rw [List.flatten_append, flatten_range_chunks]
  by_cases h : lst.length % k > 0
  · rw [if_pos h]
    simp only [List.flatten_cons, List.flatten_nil, List.append_nil]
    have hdm := Nat.div_add_mod lst.length k
    have hcomm : lst.length / k * k = k * (lst.length / k) := Nat.mul_comm _ _
    have hlen : (lst.drop (lst.length / k * k)).length = lst.length % k := by
      rw [List.length_drop]
      omega
    rw [← hlen, List.take_length, List.take_append_drop]
  · rw [if_neg h]
    simp only [List.flatten_nil, List.append_nil]
    have hdm := Nat.div_add_mod lst.length k
    have hcomm : lst.length / k * k = k * (lst.length / k) := Nat.mul_comm _ _
    have heq : lst.length / k * k = lst.length := by omega
    rw [heq, List.take_length]

lemma chunks_length_le (lst : List α) (k : Nat) (hk : 0 < k) :
    ∀ c ∈ chunks lst k, c.length ≤ k := by
  intro c hc
  unfold chunks at hc
  rcases List.mem_append.mp hc with h1 | h2
  · obtain ⟨i, _, rfl⟩ := List.mem_map.mp h1
    exact List.length_take_le _ _
  · by_cases h : lst.length % k > 0
    · rw [if_pos h] at h2
      have hc2 : c = (lst.drop (lst.length / k * k)).take (lst.length % k) :=
        List.mem_singleton.mp h2
      subst hc2
      calc ((lst.drop (lst.length / k * k)).take (lst.length % k)).length
          ≤ lst.length % k := List.length_take_le _ _
        _ ≤ k := le_of_lt (Nat.mod_lt _ hk)
    · rw [if_neg h] at h2
      exact absurd h2 (List.not_mem_nil c)

lemma chunks_lengths_2500 (lst : List α) (h : lst.length = 2500) :
    (chunks lst 1000).map List.length = [1000, 1000, 500] := by
  unfold chunks
  rw [h]
  norm_num [List.range_succ, List.length_take, List.length_drop, h]

/-- Claim C7: delete_objects_s3 partitions the input key list, in
order, into consecutive chunks of at most 1000 keys whose concatenation
is the input, issues exactly one quiet delete-batch call per chunk, and
for 2500 keys makes exactly 3 calls of sizes 1000, 1000 and 500. -/
theorem delete_objects_s3_chunking (bucket : String) (keys : List KeyVersion) :
    (((delete_objects_s3 bucket keys).map (fun c => c.objects)).flatten = keys
      ∧ (∀ c ∈ delete_objects_s3 bucket keys, c.objects.length ≤ 1000 ∧ c.quiet = true)
      ∧ (delete_objects_s3 bucket keys).length = (chunks keys 1000).length)
    ∧ (keys.length = 2500 →
        (delete_objects_s3 bucket keys).map (fun c => c.objects.length) = [1000, 1000, 500]) := by
  constructor
  · refine ⟨?_, ?_, ?_⟩
    · rw [delete_objects_s3, List.map_map]
      have hmap : ((fun c : DeleteCall => c.objects) ∘
          (fun ks => ({ bucket := bucket, objects := ks, quiet := true } : DeleteCall)))
          = id := by
        funext ks; rfl
      rw [hmap, List.map_id]
      exact chunks_flatten keys 1000
    · intro c hc
      rw [delete_objects_s3] at hc
      obtain ⟨ks, hks, rfl⟩ := List.mem_map.mp hc
      exact ⟨chunks_length_le keys 1000 (by norm_num) ks hks, rfl⟩
    · rw [delete_objects_s3, List.length_map]
  · intro h
    rw [delete_objects_s3, List.map_map]
    have hmap : ((fun c : DeleteCall => c.objects.length) ∘
        (fun ks => ({ bucket := bucket, objects := ks, quiet := true } : DeleteCall)))
        = List.length := by
      funext ks; rfl
    rw [hmap, chunks_lengths_2500 keys h]

/-- Witness for C7 at a concrete 2500-key input. -/
theorem delete_objects_s3_chunking_witness :
    (delete_objects_s3 "b" (List.replicate 2500 { key := "k", versionId := "v" })).map
      (fun c => c.objects.length) = [1000, 1000, 500] :=
  (delete_objects_s3_chunking "b" (List.replicate 2500 { key := "k", versionId := "v" })).2
    (List.length_replicate 2500 _)

/-- Claim C3: put_object_s3 takes the multipart branch exactly when the
stream size, determined by seeking to the end and back, strictly
exceeds 2^28 bytes; at exactly 2^28 bytes and below it takes the
single-part branch.  The size probe reports the full byte length and
restores the stream's position. -/
theorem put_object_s3_multipart_threshold (f : FileObj) :
    ((put_object_s3_transport f).multipart_upload = true ↔ 2 ^ 28 < f.data.length)
    ∧ ((put_object_s3_transport f).client_kwargs_key = "S3.Client.create_multipart_upload"
        ↔ 2 ^ 28 < f.data.length)
    ∧ (determine_file_obj_size f).1 = f.data.length
    ∧ (determine_file_obj_size f).2 = f := by
  refine ⟨?_, ?_, rfl, rfl⟩
  · unfold put_object_s3_transport
    by_cases h : (determine_file_obj_size f).1 > multipart_size
    · rw [if_pos h]
      exact Iff.intro (fun _ => h) (fun _ => rfl)
    · rw [if_neg h]
      exact Iff.intro (fun hf => Bool.noConfusion hf) (fun hlt => absurd hlt h)
  · unfold put_object_s3_transport
    by_cases h : (determine_file_obj_size f).1 > multipart_size
    · rw [if_pos h]
      exact Iff.intro (fun _ => h) (fun _ => rfl)
    · rw [if_neg h]
      refine Iff.intro (fun hf => ?_) (fun hlt => absurd hlt h)
      exact absurd hf (by decide)

/-- Outcome of one chunked-upload attempt inside put_object_s3's retry
loop: the smart_open write either succeeds, raises
botocore ConnectionClosedError, or raises an exception of any other
class. -/
inductive PutAttempt
  | success
  | connClosed
  | otherError
deriving DecidableEq, Repr

/-- What the caller of put_object_s3 observes when the loop finishes. -/
inductive PutOutcome
  | ok
  | raisedConnClosed
  | raisedOther
deriving DecidableEq, Repr

/-- A finished run of put_object_s3's retry loop: the outcome, how many
upload attempts were made, and how many time units were spent in
sleep(3) calls. -/
structure PutRun where
  outcome : PutOutcome
  attempts : Nat
  sleepUnits : Nat
deriving DecidableEq, Repr

/-- The retry loop of put_object_s3 (main.py lines 426-441).  Attempt
results are given by an oracle indexed by attempt number.  The counter
starts at retries and is an integer; on ConnectionClosedError it is
decremented and the error is re-raised exactly when the counter equals
zero, otherwise the loop sleeps 3 and retries.  Any other exception is
not caught and propagates at once.  Fuel 0 means the loop was still
running. -/
def put_retry_loop (attempt : Nat → PutAttempt) (counter : Int)
    (attempts sleepUnits : Nat) : Nat → Option PutRun
  | 0 => none
  | fuel + 1 =>
    match attempt attempts with
    | PutAttempt.success => some ⟨PutOutcome.ok, attempts + 1, sleepUnits⟩
    | PutAttempt.otherError => some ⟨PutOutcome.raisedOther, attempts + 1, sleepUnits⟩
    | PutAttempt.connClosed =>
      if counter - 1 = 0 then
        some ⟨PutOutcome.raisedConnClosed, attempts + 1, sleepUnits⟩
      else
        put_retry_loop attempt (counter - 1) (attempts + 1) (sleepUnits + 3) fuel

/-- put_object_s3's retry behaviour, entered with counter = retries. -/
def put_object_s3_retry (attempt : Nat → PutAttempt) (retries : Int) (fuel : Nat) :
    Option PutRun :=
  put_retry_loop attempt retries 0 0 fuel

lemma put_loop_exhaust (attempt : Nat → PutAttempt)
    (h : ∀ k, attempt k = PutAttempt.connClosed) :
    ∀ n : Nat, 1 ≤ n → ∀ a s fuel : Nat, n ≤ fuel →
      put_retry_loop attempt (n : Int) a s fuel
        = some ⟨PutOutcome.raisedConnClosed, a + n, s + 3 * (n - 1)⟩ := by
  intro n
  induction n with
  | zero => intro h1; exact absurd h1 (by norm_num)
  | succ m ih =>
    intro _ a s fuel hfuel
    obtain ⟨f, rfl⟩ : ∃ f, fuel = f + 1 := ⟨fuel - 1, by omega⟩
    rw [put_retry_loop, h a]
    rcases Nat.eq_zero_or_pos m with hm | hm
    · subst hm
      norm_num
    · have hne : ((m + 1 : Nat) : Int) - 1 ≠ 0 := by
        push_cast
        omega
      rw [if_neg hne]
      have hcast : ((m + 1 : Nat) : Int) - 1 = ((m : Nat) : Int) := by push_cast; ring
      rw [hcast, ih hm (a + 1) (s + 3) f (by omega)]
      have h1 : a + 1 + m = a + (m + 1) := by omega
      have h2 : s + 3 + 3 * (m - 1) = s + 3 * (m + 1 - 1) := by omega
      rw [h1, h2]

lemma put_loop_immediate_other (attempt : Nat → PutAttempt) :
    ∀ (k : Nat) (counter : Int) (a s fuel : Nat),
      (∀ j, j < k → attempt (a + j) = PutAttempt.connClosed) →
      attempt (a + k) = PutAttempt.otherError →
      (k : Int) < counter →
      k + 1 ≤ fuel →
      put_retry_loop attempt counter a s fuel
        = some ⟨PutOutcome.raisedOther, a + k + 1, s + 3 * k⟩ := by
  intro k
  induction k with
  | zero =>
    intro counter a s fuel _ hother _ hfuel
    obtain ⟨f, rfl⟩ : ∃ f, fuel = f + 1 := ⟨fuel - 1, by omega⟩
    rw [put_retry_loop]
    simp only [Nat.add_zero] at hother
    rw [hother]
    norm_num
  | succ m ih =>
    intro counter a s fuel hcc hother hcnt hfuel
    obtain ⟨f, rfl⟩ : ∃ f, fuel = f + 1 := ⟨fuel - 1, by omega⟩
    rw [put_retry_loop]
    have h0 : attempt (a + 0) = PutAttempt.connClosed := hcc 0 (by omega)
    simp only [Nat.add_zero] at h0
    rw [h0]
    have hne : counter - 1 ≠ 0 := by omega
    rw [if_neg hne]
    have hstep := ih (counter - 1) (a + 1) (s + 3) f
      (fun j hj => by
        have := hcc (j + 1) (by omega)
        simpa [Nat.add_comm, Nat.add_left_comm, Nat.add_assoc] using this)
      (by
        have := hother
        simpa [Nat.add_comm, Nat.add_left_comm, Nat.add_assoc] using this)
      (by omega) (by omega)
    rw [hstep]
    have h1 : a + 1 + m + 1 = a + (m + 1) + 1 := by omega
    have h2 : s + 3 + 3 * m = s + 3 * (m + 1) := by omega
    rw [h1, h2]

lemma put_loop_nonpos_never_stops (attempt : Nat → PutAttempt)
    (h : ∀ k, attempt k = PutAttempt.connClosed) :
    ∀ (fuel : Nat) (counter : Int), counter ≤ 0 → ∀ a s : Nat,
      put_retry_loop attempt counter a s fuel = none := by
  intro fuel
  induction fuel with
  | zero => intro counter _ a s; rfl
  | succ f ih =>
    intro counter hcnt a s
    rw [put_retry_loop, h a]
    have hne : counter - 1 ≠ 0 := by omega
    rw [if_neg hne]
    exact ih (counter - 1) (by omega) (a + 1) (s + 3)

/-- Claim C4: put_object_s3 retries only on connection-closed errors,
sleeping 3 time units between consecutive attempts; once the budget is
exhausted it re-raises that error, and an exception of any other class
propagates immediately with no further attempt and no sleep. -/
theorem put_object_s3_retry_policy (attempt : Nat → PutAttempt) (retries : Int)
    (fuel : Nat) :
    ((∀ k, attempt k = PutAttempt.connClosed) → 1 ≤ retries → retries.toNat ≤ fuel →
        put_object_s3_retry attempt retries fuel
          = some ⟨PutOutcome.raisedConnClosed, retries.toNat, 3 * (retries.toNat - 1)⟩)
    ∧ (∀ k : Nat, (∀ j, j < k → attempt j = PutAttempt.connClosed) →
        attempt k = PutAttempt.otherError → (k : Int) < retries → k + 1 ≤ fuel →
        put_object_s3_retry attempt retries fuel
          = some ⟨PutOutcome.raisedOther, k + 1, 3 * k⟩) := by
  constructor
  · intro hcc hr hfuel
    have hcast : ((retries.toNat : Nat) : Int) = retries := Int.toNat_of_nonneg (by omega)
    have hrun := put_loop_exhaust attempt hcc retries.toNat (by omega) 0 0 fuel hfuel
    rw [hcast] at hrun
    rw [put_object_s3_retry]
    simpa using hrun
  · intro k hcc hother hcnt hfuel
    have := put_loop_immediate_other attempt k retries 0 0 fuel
      (fun j hj => by simpa using hcc j hj) (by simpa using hother) hcnt hfuel
    rw [put_object_s3_retry]
    simpa using this

/-- Witness for C4: with retries = 3 and every attempt failing with a
connection-closed error the loop makes 3 attempts, sleeps 6 units and
re-raises; with the third attempt failing with another class after two
connection-closed failures and retries = 5, the error propagates at
once after 3 attempts and 6 sleep units. -/
theorem put_object_s3_retry_policy_witness :
    put_object_s3_retry (fun _ => PutAttempt.connClosed) 3 3
        = some ⟨PutOutcome.raisedConnClosed, 3, 6⟩
    ∧ put_object_s3_retry
        (fun k => if k < 2 then PutAttempt.connClosed else PutAttempt.otherError) 5 3
        = some ⟨PutOutcome.raisedOther, 3, 6⟩ := by
  constructor
  · exact (put_object_s3_retry_policy (fun _ => PutAttempt.connClosed) 3 3).1
      (fun _ => rfl) (by norm_num) (by norm_num)
  · exact (put_object_s3_retry_policy
      (fun k => if k < 2 then PutAttempt.connClosed else PutAttempt.otherError) 5 3).2
      2 (fun j hj => by interval_cases j <;> rfl) rfl (by norm_num) (by norm_num)

/-- Claim C10: when every attempt raises a connection-closed error,
put_object_s3's loop terminates after exactly retries attempts by
re-raising when retries is at least 1; when retries is at most 0 the
decrement skips past the equality-with-zero test and the loop never
terminates (it returns nothing for every amount of fuel). -/
theorem put_object_s3_retry_termination (attempt : Nat → PutAttempt) (retries : Int)
    (h : ∀ k, attempt k = PutAttempt.connClosed) :
    (1 ≤ retries → ∀ fuel, retries.toNat ≤ fuel →
        put_object_s3_retry attempt retries fuel
          = some ⟨PutOutcome.raisedConnClosed, retries.toNat, 3 * (retries.toNat - 1)⟩)
    ∧ (retries ≤ 0 → ∀ fuel,
        put_object_s3_retry attempt retries fuel = none) := by
  constructor
  · intro hr fuel hfuel
    have hcast : ((retries.toNat : Nat) : Int) = retries := Int.toNat_of_nonneg (by omega)
    have hrun := put_loop_exhaust attempt h retries.toNat (by omega) 0 0 fuel hfuel
    rw [hcast] at hrun
    rw [put_object_s3_retry]
    simpa using hrun
  · intro hr fuel
    exact put_loop_nonpos_never_stops attempt h fuel retries hr 0 0

/-- Witness for C10: retries = 2 stops after exactly 2 attempts with
the re-raised error; retries = 0 is still looping after 4 fuel. -/
theorem put_object_s3_retry_termination_witness :
    put_object_s3_retry (fun _ => PutAttempt.connClosed) 2 2
        = some ⟨PutOutcome.raisedConnClosed, 2, 3⟩
    ∧ put_object_s3_retry (fun _ => PutAttempt.connClosed) 0 4 = none := by
  constructor
  · exact (put_object_s3_retry_termination (fun _ => PutAttempt.connClosed) 2
      (fun _ => rfl)).1 (by norm_num) 2 (by norm_num)
  · exact (put_object_s3_retry_termination (fun _ => PutAttempt.connClosed) 0
      (fun _ => rfl)).2 (by norm_num) 4

/-- A finished run of url_to_stream's retry loop: the returned stream
(none models the Python None result), the number of open attempts, and
the time units spent sleeping. -/
structure UrlRun where
  result : Option Unit
  attempts : Nat
  sleepUnits : Nat
deriving DecidableEq, Repr

/-- The retry loop of url_to_stream (main.py lines 223-239).  The open
oracle says whether smart_open succeeds on a given attempt.  On an
exception the counter is decremented; while it is still positive the
loop sleeps 3 and retries, otherwise it sets the result to None and
breaks without raising. -/
def url_retry_loop (openOk : Nat → Bool) (counter : Int)
    (attempts sleepUnits : Nat) : Nat → Option UrlRun
  | 0 => none
  | fuel + 1 =>
    if openOk attempts then
      some ⟨some (), attempts + 1, sleepUnits⟩
    else
      if counter - 1 > 0 then
        url_retry_loop openOk (counter - 1) (attempts + 1) (sleepUnits + 3) fuel
      else
        some ⟨none, attempts + 1, sleepUnits⟩

/-- url_to_stream's retry behaviour, entered with counter = retries. -/
def url_to_stream (openOk : Nat → Bool) (retries : Int) (fuel : Nat) : Option UrlRun :=
  url_retry_loop openOk retries 0 0 fuel

/-- Claim C5: with retries = 3 and every open attempt raising,
url_to_stream makes exactly 3 attempts, sleeps 3 units between
consecutive attempts (6 units total), and returns None rather than
raising. -/
theorem url_to_stream_three_attempts (openOk : Nat → Bool)
    (h : ∀ k, openOk k = false) (fuel : Nat) (hf : 3 ≤ fuel) :
    url_to_stream openOk 3 fuel = some ⟨none, 3, 6⟩ := by
  obtain ⟨f, rfl⟩ : ∃ f, fuel = f + 1 + 1 + 1 := ⟨fuel - 3, by omega⟩
  rw [url_to_stream, url_retry_loop, h 0]
  norm_num
  rw [url_retry_loop, h 1]
  norm_num
  rw [url_retry_loop, h 2]
  norm_num

/-- Witness for C5 with a concrete always-failing opener and fuel 3. -/
theorem url_to_stream_three_attempts_witness :
    url_to_stream (fun _ => false) 3 3 = some ⟨none, 3, 6⟩ :=
  url_to_stream_three_attempts (fun _ => false) (fun _ => rfl) 3 (by norm_num)

/-- True when the Python expression pat in s holds, implemented with
splitOn: a nonempty pattern occurs in s iff splitting on it yields
more than one piece. -/
def strContains (s pat : String) : Bool := 1 < (s.splitOn pat).length

/-- Python str.rstrip with the single character slash. -/
def rstripSlash (s : String) : String := s.dropRightWhile (fun c => c = '/')

/-- utils.create_public_s3_url: contabo-style base:bucket/key when the
base url contains the substring contabo, otherwise base/bucket/key. -/
def create_public_s3_url (base_url bucket obj_key : String) : String :=
  if strContains base_url "contabo" then
    rstripSlash base_url ++ ":" ++ bucket ++ "/" ++ obj_key
  else
    rstripSlash base_url ++ "/" ++ bucket ++ "/" ++ obj_key

/-- The transport branch chosen by get_object_s3 (main.py lines
148-176): the public-url path, the client path (from a handle or from
raw connection parameters), or the raised TypeError. -/
inductive GetDispatch
  | publicUrlPath (url : String)
  | clientPath
  | typeError
deriving DecidableEq, Repr

/-- get_object_s3's transport dispatch.  The booleans record whether
the s3 argument passes the isinstance BaseClient check and whether
connection_config passes the isinstance dict check; public_url is the
optional url string. -/
def get_object_s3_dispatch (s3_is_client connection_config_is_dict : Bool)
    (public_url : Option String) (version_id : Option String)
    (bucket obj_key : String) : GetDispatch :=
  match public_url, version_id with
  | some u, none => GetDispatch.publicUrlPath (create_public_s3_url u bucket obj_key)
  | _, _ =>
    if s3_is_client || connection_config_is_dict then
      GetDispatch.clientPath
    else
      GetDispatch.typeError

/-- Claim C6: when none of an s3 client, a connection_config dict, or a
public_url is supplied, get_object_s3 raises a TypeError (its
configuration error) instead of returning a stream or a None result. -/
theorem get_object_s3_no_transport_raises (version_id : Option String)
    (bucket obj_key : String) :
    get_object_s3_dispatch false false none version_id bucket obj_key
      = GetDispatch.typeError := by
  cases version_id <;> rfl

/-- Python exception classes raised by the embedded code paths. -/
inductive PyError
  | attributeError
  | typeError
deriving DecidableEq, Repr

/-- decompress_stream_to_object (main.py lines 335-373).  The zstd and
gzip codecs are opaque parameters.  The function first evaluates
compression.lower(): on a None compression this is an AttributeError.
In the final else branch the code calls the builtin open() on an
io.BytesIO object, which is a TypeError, so the nominal raw-copy branch
also raises. -/
def decompress_stream_to_object
    (zstdDecode gzipDecode : List UInt8 → List UInt8)
    (file_obj : List UInt8) (compression : Option String) :
    Except PyError (List UInt8) :=
  match compression with
  | none => Except.error PyError.attributeError
  | some c =>
    if c.toLower = "zstd" then Except.ok (zstdDecode file_obj)
    else if c.toLower = "gzip" then Except.ok (gzipDecode file_obj)
    else Except.error PyError.typeError

/-- Claim C2 evaluated on the code: with the compression argument
absent (None), decompress_stream_to_object raises AttributeError on
compression.lower() for every input stream, instead of performing the
documented raw byte copy. -/
theorem decompress_stream_to_object_none_raises
    (zstdDecode gzipDecode : List UInt8 → List UInt8) (file_obj : List UInt8) :
    decompress_stream_to_object zstdDecode gzipDecode file_obj none
      = Except.error PyError.attributeError := rfl

/-- A Python stream as seen by the zstd wrappers: only the optional
private _buffer_size attribute matters. -/
structure PyStream where
  buffer_size_attr : Option Nat
deriving DecidableEq, Repr

/-- The default value of the buffer_size parameter of both
zstd_stream_reader and zstd_stream_writer in main.py. -/
def zstd_default_buffer_size : Nat := 512000

/-- A zstd stream_reader: the wrapped stream and the read_size that
was passed to the decompressor. -/
structure ZstdReader where
  source : PyStream
  read_size : Nat
deriving DecidableEq, Repr

/-- A zstd stream_writer: the wrapped stream, the write_size passed to
the level-1 compressor, and the _buffer_size attribute the function
sets on the writer. -/
structure ZstdWriter where
  sink : PyStream
  write_size : Nat
  buffer_size_attr : Option Nat
deriving DecidableEq, Repr

/-- zstd_stream_reader (main.py lines 242-252): take the wrapped
stream's _buffer_size when the attribute exists, else the buffer_size
argument, and use it as the decompressor's read_size. -/
def zstd_stream_reader (stream : PyStream) (buffer_size : Nat) : ZstdReader :=
  match stream.buffer_size_attr with
  | some b => { source := stream, read_size := b }
  | none => { source := stream, read_size := buffer_size }

/-- zstd_stream_writer (main.py lines 255-265): same buffer-size
choice, used as the compressor's write_size and recorded on the writer
as _buffer_size. -/
def zstd_stream_writer (stream : PyStream) (buffer_size : Nat) : ZstdWriter :=
  match stream.buffer_size_attr with
  | some b => { sink := stream, write_size := b, buffer_size_attr := some b }
  | none => { sink := stream, write_size := buffer_size, buffer_size_attr := some buffer_size }

/-- Counterexample to claim C9 as stated: a stream without a
_buffer_size attribute makes the wrappers fall back to the declared
default of 512000 bytes, not 500000. -/
theorem zstd_default_is_not_500000 :
    (zstd_stream_reader ⟨none⟩ zstd_default_buffer_size).read_size = 512000
    ∧ (zstd_stream_writer ⟨none⟩ zstd_default_buffer_size).write_size = 512000
    ∧ (zstd_stream_reader ⟨none⟩ zstd_default_buffer_size).read_size ≠ 500000 := by
  refine ⟨rfl, rfl, ?_⟩
  decide

/-- Claim C9 amended: zstd_stream_reader and zstd_stream_writer use the
wrapped stream's own _buffer_size as the codec read/write size whenever
the stream exposes one, and otherwise default to 512000 bytes. -/
theorem zstd_buffer_size_inheritance (s : PyStream) :
    (∀ b, s.buffer_size_attr = some b →
        (zstd_stream_reader s zstd_default_buffer_size).read_size = b
        ∧ (zstd_stream_writer s zstd_default_buffer_size).write_size = b)
    ∧ (s.buffer_size_attr = none →
        (zstd_stream_reader s zstd_default_buffer_size).read_size = 512000
        ∧ (zstd_stream_writer s zstd_default_buffer_size).write_size = 512000) := by
  obtain ⟨attr⟩ := s
  cases attr with
  | none =>
    refine ⟨?_, ?_⟩
    · intro b hb
      exact absurd hb (by simp)
    · intro _
      exact ⟨rfl, rfl⟩
  | some b0 =>
    refine ⟨?_, ?_⟩
    · intro b hb
      have hb0 : b0 = b := by
        simpa using hb
      subst hb0
      exact ⟨rfl, rfl⟩
    · intro hnone
      exact absurd hnone (by simp)

/-- Witness for amended C9 at a stream exposing _buffer_size = 7 and a
stream without the attribute. -/
theorem zstd_buffer_size_inheritance_witness :
    (zstd_stream_reader ⟨some 7⟩ zstd_default_buffer_size).read_size = 7
    ∧ (zstd_stream_writer ⟨some 7⟩ zstd_default_buffer_size).write_size = 7
    ∧ (zstd_stream_reader ⟨none⟩ zstd_default_buffer_size).read_size = 512000 := by
  refine ⟨?_, ?_, ?_⟩
  · exact ((zstd_buffer_size_inheritance ⟨some 7⟩).1 7 rfl).1
  · exact ((zstd_buffer_size_inheritance ⟨some 7⟩).1 7 rfl).2
  · exact ((zstd_buffer_size_inheritance ⟨none⟩).2 rfl).1

/-- The request parameters of a list_objects_v2 call as assembled by
utils.build_params plus the ContinuationToken key list_objects may
add.  A field of none models an absent dictionary key. -/
structure ListParams where
  bucket : String
  startAfter : Option String
  pfx : Option String
  delimiter : Option String
  maxKeys : Option Nat
  continuationToken : Option String
deriving DecidableEq, Repr

/-- Python truthiness of an optional string argument. -/
def truthyStr : Option String → Bool
  | none => false
  | some s => s ≠ ""

/-- Python truthiness of an optional integer argument. -/
def truthyNat : Option Nat → Bool
  | none => false
  | some n => n ≠ 0

/-- utils.build_params: keys are added only when the argument is
truthy. -/
def build_params (bucket : String) (start_after pfx delimiter : Option String)
    (max_keys : Option Nat) : ListParams :=
  { bucket := bucket
    startAfter := if truthyStr start_after then start_after else none
    pfx := if truthyStr pfx then pfx else none
    delimiter := if truthyStr delimiter then delimiter else none
    maxKeys := if truthyNat max_keys then max_keys else none
    continuationToken := none }

/-- One page of a list_objects_v2 response: the optional Contents array
and the optional NextContinuationToken. -/
structure ListResponse where
  contents : Option (List ObjectRecord)
  nextContinuationToken : Option String
deriving DecidableEq, Repr

/-- The pagination loop of list_objects (main.py lines 603-616),
translated exactly.  On each iteration the backend is called with
params; when the response has Contents they are accumulated, and when
it also has NextContinuationToken the loop continues.  As in the
source, the token is stored in the local continuation_token variable
and params is never updated, so every backend call carries the same
parameters. -/
def list_objects_loop (api : ListParams → ListResponse) (params : ListParams)
    (acc : List ObjectRecord) : Nat → Option (List ObjectRecord)
  | 0 => none
  | fuel + 1 =>
    match (api params).contents with
    | some contents =>
      match (api params).nextContinuationToken with
      | some _ => list_objects_loop api params (acc ++ contents) fuel
      | none => some (acc ++ contents)
    | none => some acc

/-- list_objects (main.py lines 573-616): build the params from the
arguments, add ContinuationToken when the argument is not None, and
run the pagination loop. -/
def list_objects (api : ListParams → ListResponse) (bucket : String)
    (pfx start_after delimiter : Option String) (max_keys : Option Nat)
    (continuation_token : Option String) (fuel : Nat) : Option (List ObjectRecord) :=
  let params := build_params bucket start_after pfx delimiter max_keys
  let params :=
    match continuation_token with
    | some t => { params with continuationToken := some t }
    | none => params
  list_objects_loop api params [] fuel

/-- First record of the two-page bucket used against claim C1. -/
def c1rec1 : ObjectRecord :=
  { key := "a", lastModified := { wallUTC := 0, hasTZ := true }, etag := "\"e1\"", size := 1 }

/-- Second record of the two-page bucket used against claim C1. -/
def c1rec2 : ObjectRecord :=
  { key := "b", lastModified := { wallUTC := 1, hasTZ := true }, etag := "\"e2\"", size := 1 }

/-- A backend holding two objects spread over two pages: a request
without a continuation token returns the first page and the token
tok1; a request carrying tok1 returns the second page with no further
token. -/
def twoPageBackend : ListParams → ListResponse := fun p =>
  match p.continuationToken with
  | none => { contents := some [c1rec1], nextContinuationToken := some "tok1" }
  | some t =>
    if t = "tok1" then { contents := some [c1rec2], nextContinuationToken := none }
    else { contents := none, nextContinuationToken := none }

lemma list_objects_loop_stuck (acc : List ObjectRecord) (fuel : Nat)
    (params : ListParams) (hp : params.continuationToken = none) :
    list_objects_loop twoPageBackend params acc fuel = none := by
  induction fuel generalizing acc with
  | zero => rfl
  | succ n ih =>
    rw [list_objects_loop]
    have hresp : twoPageBackend params
        = { contents := some [c1rec1], nextContinuationToken := some "tok1" } := by
      rw [twoPageBackend, hp]
    rw [hresp]
    exact ih (acc ++ [c1rec1])

/-- Claim C1 evaluated on the code: against a bucket whose objects span
two pages (max_keys = 1), list_objects never terminates for any amount
of fuel, because the NextContinuationToken of each response is assigned
to a local variable but never fed back into the request parameters, so
every backend call repeats the first request. -/
theorem list_objects_multipage_never_terminates (fuel : Nat) :
    list_objects twoPageBackend "bkt" none none none (some 1) none fuel = none := by
  rw [list_objects]
  exact list_objects_loop_stuck [] fuel _ rfl

/-- pandas Series.str.replace of the quote character with the empty
string: drop every quote character. -/
def stripQuotes (s : String) : String := String.mk (s.data.filter (fun c => c ≠ '"'))

/-- pandas dt.tz_localize None on a tz-aware UTC timestamp: keep the
UTC wall clock, drop the timezone flag. -/
def tz_localize_none (t : Timestamp) : Timestamp := { wallUTC := t.wallUTC, hasTZ := false }

/-- A row of the DataFrame returned by list_objects_s3: the selected
columns after the ETag and LastModified transformations, plus the
optional KeyDate column (present iff a date_format was given; its
value is None when the key name does not parse). -/
structure OutRecord where
  key : String
  lastModified : Timestamp
  etag : String
  size : Nat
  keyDate : Option (Option Timestamp)
deriving DecidableEq, Repr

/-- The post-processing of list_objects_s3 (main.py lines 747-752):
select the columns, optionally parse a KeyDate from the key name,
strip the quotes from ETag and drop the timezone from LastModified.
The pandas key-name date parser is an opaque parameter. -/
def process_listing (dateParse : String → Option Timestamp) (date_format : Option String)
    (js : List ObjectRecord) : List OutRecord :=
  js.map (fun r =>
    { key := r.key
      lastModified := tz_localize_none r.lastModified
      etag := stripQuotes r.etag
      size := r.size
      keyDate :=
        match date_format with
        | some _ => some (dateParse r.key)
        | none => none })

/-- Parameters of the legacy marker-based s3.list_objects call made by
list_objects_s3 for the one known legacy endpoint. -/
structure LegacyListParams where
  bucket : String
  pfx : String
  marker : String
  delimiter : String
deriving DecidableEq, Repr

/-- One page of a legacy list_objects response. -/
structure LegacyListResponse where
  contents : Option (List ObjectRecord)
  nextMarker : Option String
deriving DecidableEq, Repr

/-- Parameters of the list_objects_v2 call made by list_objects_s3
(all five always passed, as strings). -/
structure V2ListParams where
  bucket : String
  pfx : String
  startAfter : String
  delimiter : String
  continuationToken : String
deriving DecidableEq, Repr

/-- The legacy pagination loop of list_objects_s3 (main.py lines
719-731): the Marker argument is updated from each NextMarker. -/
def list_objects_s3_legacy_loop (api : LegacyListParams → LegacyListResponse)
    (bucket pfx delimiter : String) (marker : String)
    (acc : List ObjectRecord) : Nat → Option (List ObjectRecord)
  | 0 => none
  | fuel + 1 =>
    match api ⟨bucket, pfx, marker, delimiter⟩ with
    | ⟨some contents, some m⟩ =>
      list_objects_s3_legacy_loop api bucket pfx delimiter m (acc ++ contents) fuel
    | ⟨some contents, none⟩ => some (acc ++ contents)
    | ⟨none, _⟩ => some acc

/-- The v2 pagination loop of list_objects_s3 (main.py lines 733-745):
the ContinuationToken argument is updated from each
NextContinuationToken. -/
def list_objects_s3_v2_loop (api : V2ListParams → ListResponse)
    (bucket pfx startAfter delimiter : String) (continuationToken : String)
    (acc : List ObjectRecord) : Nat → Option (List ObjectRecord)
  | 0 => none
  | fuel + 1 =>
    match api ⟨bucket, pfx, startAfter, delimiter, continuationToken⟩ with
    | ⟨some contents, some tok⟩ =>
      list_objects_s3_v2_loop api bucket pfx startAfter delimiter tok
        (acc ++ contents) fuel
    | ⟨some contents, none⟩ => some (acc ++ contents)
    | ⟨none, _⟩ => some acc

/-- list_objects_s3 (main.py lines 694-759): the legacy marker loop
for the one known legacy endpoint host, the v2 loop otherwise, then
the DataFrame post-processing.  An empty accumulation yields an empty
DataFrame, which the map on the empty list models. -/
def list_objects_s3 (endpointHost : String)
    (legacyAPI : LegacyListParams → LegacyListResponse)
    (v2API : V2ListParams → ListResponse)
    (bucket pfx start_after delimiter continuation_token : String)
    (dateParse : String → Option Timestamp) (date_format : Option String)
    (fuel : Nat) : Option (List OutRecord) :=
  let jsOpt :=
    if endpointHost = "https://vault.revera.co.nz" then
      list_objects_s3_legacy_loop legacyAPI bucket pfx delimiter start_after [] fuel
    else
      list_objects_s3_v2_loop v2API bucket pfx start_after delimiter
        continuation_token [] fuel
  jsOpt.map (process_listing dateParse date_format)

/-- Parameters of the list_object_versions call made by
list_object_versions_s3; the Delimiter kwarg is passed only when the
argument is a string, hence the option. -/
structure VersListParams where
  bucket : String
  pfx : String
  keyMarker : String
  delimiter : Option String
deriving DecidableEq, Repr

/-- One page of a list_object_versions response. -/
structure VersListResponse where
  versions : Option (List VersionRecord)
  nextKeyMarker : Option String
deriving DecidableEq, Repr

/-- A row of the DataFrame returned by list_object_versions_s3. -/
structure VersOutRecord where
  key : String
  versionId : String
  isLatest : Bool
  lastModified : Timestamp
  etag : String
  size : Nat
  keyDate : Option (Option Timestamp)
deriving DecidableEq, Repr

/-- The post-processing of list_object_versions_s3 (main.py lines
801-806), same ETag and LastModified transformations. -/
def process_version_listing (dateParse : String → Option Timestamp)
    (date_format : Option String) (js : List VersionRecord) : List VersOutRecord :=
  js.map (fun r =>
    { key := r.key
      versionId := r.versionId
      isLatest := r.isLatest
      lastModified := tz_localize_none r.lastModified
      etag := stripQuotes r.etag
      size := r.size
      keyDate :=
        match date_format with
        | some _ => some (dateParse r.key)
        | none => none })

/-- The pagination loop of list_object_versions_s3 (main.py lines
785-799): the KeyMarker argument is updated from each NextKeyMarker. -/
def list_object_versions_s3_loop (api : VersListParams → VersListResponse)
    (bucket pfx : String) (delimiter : Option String) (keyMarker : String)
    (acc : List VersionRecord) : Nat → Option (List VersionRecord)
  | 0 => none
  | fuel + 1 =>
    match api ⟨bucket, pfx, keyMarker, delimiter⟩ with
    | ⟨some versions, some m⟩ =>
      list_object_versions_s3_loop api bucket pfx delimiter m (acc ++ versions) fuel
    | ⟨some versions, none⟩ => some (acc ++ versions)
    | ⟨none, _⟩ => some acc

/-- list_object_versions_s3 (main.py lines 762-813): the pagination
loop followed by the DataFrame post-processing. -/
def list_object_versions_s3 (api : VersListParams → VersListResponse)
    (bucket pfx start_after : String) (delimiter : Option String)
    (dateParse : String → Option Timestamp) (date_format : Option String)
    (fuel : Nat) : Option (List VersOutRecord) :=
  (list_object_versions_s3_loop api bucket pfx delimiter start_after [] fuel).map
    (process_version_listing dateParse date_format)

lemma stripQuotes_no_quote (s : String) : '"' ∉ (stripQuotes s).data := by
  intro hmem
  rw [stripQuotes] at hmem
  have hp := (List.mem_filter.mp hmem).2
  simp at hp

lemma process_listing_clean (dateParse : String → Option Timestamp)
    (date_format : Option String) (js : List ObjectRecord) :
    ∀ r ∈ process_listing dateParse date_format js,
      '"' ∉ r.etag.data ∧ r.lastModified.hasTZ = false := by
  intro r hr
  obtain ⟨r0, _, rfl⟩ := List.mem_map.mp hr
  exact ⟨stripQuotes_no_quote r0.etag, rfl⟩

lemma process_version_listing_clean (dateParse : String → Option Timestamp)
    (date_format : Option String) (js : List VersionRecord) :
    ∀ r ∈ process_version_listing dateParse date_format js,
      '"' ∉ r.etag.data ∧ r.lastModified.hasTZ = false := by
  intro r hr
  obtain ⟨r0, _, rfl⟩ := List.mem_map.mp hr
  exact ⟨stripQuotes_no_quote r0.etag, rfl⟩

/-- The single-page backend used against claim C8 as stated: one object
whose ETag still carries the surrounding quotes and whose LastModified
carries a timezone. -/
def c8Record : ObjectRecord :=
  { key := "k", lastModified := { wallUTC := 5, hasTZ := true }, etag := "\"abc\"", size := 2 }

/-- A backend whose only page is the single unprocessed record. -/
def onePageBackend : ListParams → ListResponse := fun _ =>
  { contents := some [c8Record], nextContinuationToken := none }

/-- Counterexample to claim C8 as stated: list_objects returns the
backend records untouched, so the returned record keeps the quotes
around its ETag and the timezone on its LastModified (the stripping
code in list_objects and list_object_versions is commented out; it
lives only in the DataFrame variants list_objects_s3 and
list_object_versions_s3). -/
theorem list_objects_returns_unstripped_record :
    list_objects onePageBackend "b" none none none none none 1 = some [c8Record]
    ∧ '"' ∈ c8Record.etag.data
    ∧ c8Record.lastModified.hasTZ = true := by
  refine ⟨rfl, ?_, rfl⟩
  decide

/-- Claim C8 amended: every record returned by the DataFrame listing
calls list_objects_s3 and list_object_versions_s3 has the quote
characters stripped from its ETag and its LastModified normalized to a
naive (zoneless) UTC representation. -/
theorem listing_s3_etag_timestamp_normalized (endpointHost : String)
    (legacyAPI : LegacyListParams → LegacyListResponse)
    (v2API : V2ListParams → ListResponse)
    (versAPI : VersListParams → VersListResponse)
    (bucket pfx start_after delimiter continuation_token : String)
    (vers_delimiter : Option String)
    (dateParse : String → Option Timestamp) (date_format : Option String)
    (fuel : Nat) :
    (∀ out, list_objects_s3 endpointHost legacyAPI v2API bucket pfx start_after delimiter
        continuation_token dateParse date_format fuel = some out →
      ∀ r ∈ out, '"' ∉ r.etag.data ∧ r.lastModified.hasTZ = false)
    ∧ (∀ out, list_object_versions_s3 versAPI bucket pfx start_after vers_delimiter
        dateParse date_format fuel = some out →
      ∀ r ∈ out, '"' ∉ r.etag.data ∧ r.lastModified.hasTZ = false) := by
  constructor
  · intro out hout
    rw [list_objects_s3] at hout
    obtain ⟨js, _, rfl⟩ := Option.map_eq_some'.mp hout
    exact process_listing_clean dateParse date_format js
  · intro out hout
    rw [list_object_versions_s3] at hout
    obtain ⟨js, _, rfl⟩ := Option.map_eq_some'.mp hout
    exact process_version_listing_clean dateParse date_format js

/-- The processed form of the single record, as list_objects_s3
returns it. -/
def c8OutRecord : OutRecord :=
  { key := "k", lastModified := { wallUTC := 5, hasTZ := false }, etag := "abc",
    size := 2, keyDate := none }

/-- The single unprocessed version record used in the C8 witness. -/
def c8VersRecord : VersionRecord :=
  { key := "k", versionId := "v1", isLatest := true,
    lastModified := { wallUTC := 5, hasTZ := true }, etag := "\"abc\"", size := 2 }

/-- The processed form of the single version record. -/
def c8VersOutRecord : VersOutRecord :=
  { key := "k", versionId := "v1", isLatest := true,
    lastModified := { wallUTC := 5, hasTZ := false }, etag := "abc",
    size := 2, keyDate := none }

/-- Witness for amended C8 at concrete single-page backends for both
DataFrame listing calls. -/
theorem listing_s3_etag_timestamp_normalized_witness :
    ('"' ∉ c8OutRecord.etag.data ∧ c8OutRecord.lastModified.hasTZ = false)
    ∧ ('"' ∉ c8VersOutRecord.etag.data ∧ c8VersOutRecord.lastModified.hasTZ = false) := by
  have h := listing_s3_etag_timestamp_normalized "h"
    (fun _ => { contents := none, nextMarker := none })
    (fun _ => { contents := some [c8Record], nextContinuationToken := none })
    (fun _ => { versions := some [c8VersRecord], nextKeyMarker := none })
    "b" "" "" "" "" none (fun _ => none) none 1
  constructor
  · have hc : list_objects_s3 "h"
        (fun _ => { contents := none, nextMarker := none })
        (fun _ => { contents := some [c8Record], nextContinuationToken := none })
        "b" "" "" "" "" (fun _ => none) none 1 = some [c8OutRecord] := by
      decide
    exact h.1 [c8OutRecord] hc c8OutRecord (List.mem_singleton.mpr rfl)
  · have hc : list_object_versions_s3
        (fun _ => { versions := some [c8VersRecord], nextKeyMarker := none })
        "b" "" "" none (fun _ => none) none 1 = some [c8VersOutRecord] := by
      decide
    exact h.2 [c8VersOutRecord] hc c8VersOutRecord (List.mem_singleton.mpr rfl)

end S3Tethys
